import Mathlib

/-!
Verification of the Fitness Fusion client against its specification.

The definitions below are shallow embeddings of the TypeScript source:

* JavaScript numbers are modelled as rationals (`ℚ`); all the numeric
  literals occurring in the source (`6.25`, `1.375`, ...) are exactly
  representable, and `Math.round`/`Number.prototype.toFixed` round
  half-up, which is Mathlib's `round` (`⌊x + 1/2⌋`).
* Calendar dates (the source compares `YYYY-MM-DD` strings obtained from
  ISO timestamps and steps them back a day at a time) are modelled as
  integer day numbers.
* The external generation service is modelled by an oracle value
  describing the outcome of the call-and-parse pipeline; stateful React
  handlers become explicit state-passing functions.
-/

/-! ## Data model (src/types.ts) -/

inductive Gender where
  | male
  | female
  | other
  deriving DecidableEq

inductive ActivityLevel where
  | sedentary
  | light
  | moderate
  | very
  deriving DecidableEq

structure WeightEntry where
  date : String
  weight : ℚ
  deriving DecidableEq

structure UserProfile where
  name : String
  gender : Gender
  age : ℚ
  weight : ℚ
  height : ℚ
  goal : String
  activityLevel : ActivityLevel
  weightHistory : List WeightEntry
  deriving DecidableEq

structure Exercise where
  id : String
  name : String
  sets : ℚ
  reps : ℚ
  weight : ℚ
  completed : Bool
  deriving DecidableEq

structure WorkoutSession where
  id : String
  date : String
  name : String
  exercises : List Exercise
  durationMinutes : Nat
  caloriesBurned : Nat
  goal : Option String
  goalAchieved : Option Bool
  deriving DecidableEq

/-! ## Daily calorie target (src/services/geminiService.ts, Dashboard
component, `calculateTargets`)

```ts
let bmr = (10 * userProfile.weight) + (6.25 * userProfile.height) - (5 * userProfile.age);
bmr += userProfile.gender === 'Male' ? 5 : -161;
const tdee = bmr * multipliers[userProfile.activityLevel];
let dailyCalorieGoal = tdee;
if (userProfile.goal === 'Lose Weight') dailyCalorieGoal -= 500;
if (userProfile.goal === 'Build Muscle') dailyCalorieGoal += 300;
return { calorieGoal: Math.round(dailyCalorieGoal), stepGoal: 10000 };
```
-/

def multipliers : ActivityLevel → ℚ
  | .sedentary => 1.2
  | .light => 1.375
  | .moderate => 1.55
  | .very => 1.725

def calculateTargets (userProfile : UserProfile) : Int × Nat :=
  let bmr0 : ℚ :=
    10 * userProfile.weight + 6.25 * userProfile.height - 5 * userProfile.age
  let bmr : ℚ := bmr0 + (if userProfile.gender = Gender.male then 5 else -161)
  let tdee : ℚ := bmr * multipliers userProfile.activityLevel
  let afterLose : ℚ := if userProfile.goal = "Lose Weight" then tdee - 500 else tdee
  let afterBuild : ℚ :=
    if userProfile.goal = "Build Muscle" then afterLose + 300 else afterLose
  (round afterBuild, 10000)

/-! ## BMI and category (Profile component)

```ts
const heightInMeters = user.height / 100;
const bmi = (user.weight / (heightInMeters * heightInMeters)).toFixed(1);
const bmiValue = parseFloat(bmi);
if (bmiValue < 18.5) { bmiCategory = 'Underweight'; }
else if (bmiValue >= 18.5 && bmiValue < 25) { bmiCategory = 'Healthy'; }
else if (bmiValue >= 25 && bmiValue < 30) { bmiCategory = 'Overweight'; }
else { bmiCategory = 'Obese'; }
```
`toFixed(1)` keeps one decimal digit, rounding to the nearest multiple of
1/10 with ties going to the larger value, i.e. `round (10·q) / 10`. -/

def toFixed1 (q : ℚ) : ℚ := (round (10 * q) : ℚ) / 10

inductive BMICategory where
  | underweight
  | healthy
  | overweight
  | obese
  deriving DecidableEq

def computeBMIValue (weight height : ℚ) : ℚ :=
  let heightInMeters := height / 100
  toFixed1 (weight / (heightInMeters * heightInMeters))

def bmiCategory (bmiValue : ℚ) : BMICategory :=
  if bmiValue < 18.5 then .underweight
  else if 18.5 ≤ bmiValue ∧ bmiValue < 25 then .healthy
  else if 25 ≤ bmiValue ∧ bmiValue < 30 then .overweight
  else .obese

/-! ## Session store (App component)

```ts
const handleAddWorkout = (workout) => { setWorkouts([workout, ...workouts]); ... };
const handleUpdateWorkout = (updatedWorkout) => {
  setWorkouts(workouts.map(w => w.id === updatedWorkout.id ? updatedWorkout : w));
};
const handleAddMeal = (meal) => { setMeals([meal, ...meals]); };
```
-/

def handleAddWorkout (workout : WorkoutSession) (workouts : List WorkoutSession) :
    List WorkoutSession :=
  workout :: workouts

def handleUpdateWorkout (updatedWorkout : WorkoutSession)
    (workouts : List WorkoutSession) : List WorkoutSession :=
  workouts.map fun w => if w.id = updatedWorkout.id then updatedWorkout else w

def wA : WorkoutSession :=
  { id := "a", date := "2024-01-01", name := "Push", exercises := [],
    durationMinutes := 30, caloriesBurned := 200, goal := none, goalAchieved := none }

def wB : WorkoutSession :=
  { id := "b", date := "2024-01-02", name := "Pull", exercises := [],
    durationMinutes := 40, caloriesBurned := 250, goal := none, goalAchieved := none }

def uB : WorkoutSession :=
  { id := "b", date := "2024-01-02", name := "Pull", exercises := [],
    durationMinutes := 40, caloriesBurned := 250, goal := some "Row 60kg",
    goalAchieved := some true }

/-! ## Finishing a logging session (src/components/Workout.tsx)

```ts
const finishSession = () => {
  if (!currentSessionName || currentExercises.length === 0) return;
  const durationMinutes = Math.max(1, Math.ceil(elapsedSeconds / 60));
  const calculatedCalories = Math.floor(durationMinutes * 5 + (currentExercises.length * 20));
  const newSession = { id: ..., date: ..., name: currentSessionName,
    exercises: currentExercises, durationMinutes, caloriesBurned: calculatedCalories,
    goal: currentGoal, goalAchieved };
  onAddWorkout(newSession);
  ...
};
```
-/

structure LoggingState where
  currentSessionName : String
  currentGoal : String
  goalAchieved : Bool
  currentExercises : List Exercise
  elapsedSeconds : Nat
  deriving DecidableEq

def finishSession (s : LoggingState) (now date : String) : Option WorkoutSession :=
  if s.currentSessionName = "" ∨ s.currentExercises = [] then none
  else
    let durationMinutes : Nat := max 1 ⌈(s.elapsedSeconds : ℚ) / 60⌉₊
    let calculatedCalories : Nat :=
      ⌊(durationMinutes : ℚ) * 5 + (s.currentExercises.length : ℚ) * 20⌋₊
    some { id := now, date := date, name := s.currentSessionName,
           exercises := s.currentExercises, durationMinutes := durationMinutes,
           caloriesBurned := calculatedCalories, goal := some s.currentGoal,
           goalAchieved := some s.goalAchieved }

def exA : Exercise :=
  { id := "e1", name := "Squat", sets := 3, reps := 10, weight := 60, completed := true }

def exB : Exercise :=
  { id := "e2", name := "Bench Press", sets := 3, reps := 8, weight := 40,
    completed := false }

def s125 : LoggingState :=
  { currentSessionName := "Leg Day", currentGoal := "", goalAchieved := false,
    currentExercises := [exA, exB], elapsedSeconds := 125 }

def w125 : WorkoutSession :=
  { id := "1", date := "d", name := s125.currentSessionName,
    exercises := s125.currentExercises,
    durationMinutes := max 1 ⌈(s125.elapsedSeconds : ℚ) / 60⌉₊,
    caloriesBurned :=
      ⌊((max 1 ⌈(s125.elapsedSeconds : ℚ) / 60⌉₊ : Nat) : ℚ) * 5 +
        (s125.currentExercises.length : ℚ) * 20⌋₊,
    goal := some s125.currentGoal, goalAchieved := some s125.goalAchieved }

/-! ## Heavy Lifter badge (Profile component, BADGES entry `volume_master`)

```ts
condition: (u, w) => w.some(session => {
  const totalVolume = session.exercises.reduce((acc, ex) => acc + (ex.weight * ex.reps * ex.sets), 0);
  return totalVolume >= 5000;
}),
```
-/

def sessionVolume (session : WorkoutSession) : ℚ :=
  session.exercises.foldl (fun acc ex => acc + ex.weight * ex.reps * ex.sets) 0

def heavyLifterUnlocked (u : UserProfile) (w : List WorkoutSession) : Bool :=
  w.any fun session => decide (5000 ≤ sessionVolume session)

def session5000 : WorkoutSession :=
  { id := "s", date := "2024-01-03", name := "Max Effort",
    exercises := [{ id := "e", name := "Deadlift", sets := 10, reps := 10,
                    weight := 50, completed := true }],
    durationMinutes := 10, caloriesBurned := 90, goal := none, goalAchieved := none }

/-! ## External generation calls (src/services/geminiService.ts)

The outcome of one call-and-parse pipeline against the external service is
modelled by an oracle value: the transport can fail (the awaited call
throws), the response can carry no text (`!text`), `JSON.parse` can throw,
or parsing can succeed with a payload.  The service does not guarantee
schema conformance, so the parsed payload of `analyzeFoodImage` has every
field optional (`undefined` is `none`). -/

inductive GenOutcome (α : Type) where
  | transportError
  | noText
  | parseFailure
  | parsed (value : α)
  deriving DecidableEq

def GenOutcome.isFailure {α : Type} : GenOutcome α → Bool
  | .parsed _ => false
  | _ => true

structure AnalyzedMacros where
  calories : Option ℚ
  protein : Option ℚ
  carbs : Option ℚ
  fat : Option ℚ
  deriving DecidableEq

structure ParsedFoodJson where
  name : Option String
  calories : Option ℚ
  protein : Option ℚ
  carbs : Option ℚ
  fat : Option ℚ
  description : Option String
  deriving DecidableEq

structure FoodAnalysis where
  name : Option String
  macros : AnalyzedMacros
  description : Option String
  deriving DecidableEq

inductive AnalysisError where
  | transportFailure
  | noResponse
  | parseFailure
  deriving DecidableEq

/-- `analyzeFoodImage` (src/services/geminiService.ts):

```ts
const text = response.text;
if (!text) throw new Error("No response from AI");
const data = JSON.parse(text);
return { name: data.name,
         macros: { calories: data.calories, protein: data.protein,
                   carbs: data.carbs, fat: data.fat },
         description: data.description };
} catch (error) { console.error(...); throw error; }
```

The parsed fields are passed through with no presence check, so a field
absent from the JSON flows into the result as `undefined` (`none`). -/
def analyzeFoodImage (outcome : GenOutcome ParsedFoodJson) :
    Except AnalysisError FoodAnalysis :=
  match outcome with
  | .transportError => Except.error AnalysisError.transportFailure
  | .noText => Except.error AnalysisError.noResponse
  | .parseFailure => Except.error AnalysisError.parseFailure
  | .parsed data =>
      Except.ok { name := data.name,
                  macros := { calories := data.calories, protein := data.protein,
                              carbs := data.carbs, fat := data.fat },
                  description := data.description }

def foodMissingCalories : ParsedFoodJson :=
  { name := some "Apple", calories := none, protein := some 1, carbs := some 20,
    fat := some 0, description := some "A healthy snack." }

/-! ## Workout-plan generation and its static fallback

```ts
const text = response.text;
if (!text) throw new Error("No plan generated");
return JSON.parse(text) as AIWorkoutPlan;
} catch (error) {
  return { workoutName: "Quick HIIT Blast",
           strategy: "Fallback routine to keep you moving.",
           exercises: [
             { name: "Jumping Jacks", sets: 3, reps: 30, weightSuggestion: 0 },
             { name: "Pushups", sets: 3, reps: 10, weightSuggestion: 0 },
             { name: "Squats", sets: 3, reps: 15, weightSuggestion: 0 }]};
}
```
-/

structure PlanExercise where
  name : String
  sets : Nat
  reps : Nat
  weightSuggestion : Int
  deriving DecidableEq

structure AIWorkoutPlan where
  workoutName : String
  strategy : String
  exercises : List PlanExercise
  deriving DecidableEq

def fallbackPlan : AIWorkoutPlan :=
  { workoutName := "Quick HIIT Blast",
    strategy := "Fallback routine to keep you moving.",
    exercises :=
      [{ name := "Jumping Jacks", sets := 3, reps := 30, weightSuggestion := 0 },
       { name := "Pushups", sets := 3, reps := 10, weightSuggestion := 0 },
       { name := "Squats", sets := 3, reps := 15, weightSuggestion := 0 }] }

def generateWorkoutPlan (outcome : GenOutcome AIWorkoutPlan) : AIWorkoutPlan :=
  match outcome with
  | .parsed plan => plan
  | .transportError => fallbackPlan
  | .noText => fallbackPlan
  | .parseFailure => fallbackPlan

/-! ## Conversational coaching (`getFitnessCoaching`)

```ts
try {
  const chat = ai.chats.create({ ... history: history.map(...) });
  const lastUserMessage = history[history.length - 1];
  if (lastUserMessage.role !== 'user') return "";
  const result = await chat.sendMessage({ message: lastUserMessage.text });
  return result.text || "Keep pushing! I'm analyzing your request.";
} catch (error) {
  return "I'm having trouble connecting to the fitness server. Let's focus on your breathing for a moment.";
}
```

On an empty history `history[history.length - 1]` is `undefined` and the
`.role` access throws a `TypeError` inside the `try` block; the guarded
body is modelled as an `Except` and the surrounding catch as total
unwrapping.  `send` is the oracle for `chat.sendMessage`: it either throws
or returns the response text (`""` for a missing/empty `text`). -/

inductive Role where
  | user
  | model
  deriving DecidableEq

structure ChatMessage where
  id : String
  role : Role
  text : String
  timestamp : Nat
  deriving DecidableEq

inductive JsError where
  | typeError
  | serviceFailure
  deriving DecidableEq

def coachingBody (history : List ChatMessage)
    (send : String → Except Unit String) : Except JsError String :=
  match history.getLast? with
  | none => Except.error JsError.typeError
  | some lastUserMessage =>
      if lastUserMessage.role ≠ Role.user then Except.ok ""
      else
        match send lastUserMessage.text with
        | Except.error _ => Except.error JsError.serviceFailure
        | Except.ok t =>
            Except.ok (if t = "" then "Keep pushing! I'm analyzing your request." else t)

def getFitnessCoaching (history : List ChatMessage)
    (send : String → Except Unit String) : String :=
  match coachingBody history send with
  | Except.ok s => s
  | Except.error _ =>
      "I'm having trouble connecting to the fitness server. Let's focus on your breathing for a moment."

/-! ## Nutrition view handlers (Nutrition component)

```ts
const handleFileSelect = async (e) => {
  ...
  setPreview(base64String); setAnalysisResult(null); setIsAnalyzing(true);
  try {
    const result = await analyzeFoodImage(base64Data, file.type);
    setAnalysisResult(result);
  } catch (error) {
    alert("Failed to analyze image. Please try again.");
  } finally { setIsAnalyzing(false); }
};
const handleSaveMeal = () => {
  if (analysisResult && preview) {
    const newMeal = { id: Date.now().toString(), name: analysisResult.name,
      timestamp: Date.now(), macros: analysisResult.macros, imageUrl: preview };
    onAddMeal(newMeal);
    setPreview(null); setAnalysisResult(null);
  }
};
```

`onAddMeal` is App's `handleAddMeal`, which prepends to the meal list.
The handler returns the list of alerts it showed; being a total function
it models the fact that the caught failure does not propagate. -/

structure MealLog where
  id : String
  name : Option String
  timestamp : Nat
  macros : AnalyzedMacros
  imageUrl : Option String
  deriving DecidableEq

def handleAddMeal (meal : MealLog) (meals : List MealLog) : List MealLog :=
  meal :: meals

structure NutritionState where
  isAnalyzing : Bool
  preview : Option String
  analysisResult : Option FoodAnalysis
  deriving DecidableEq

structure NutriApp where
  meals : List MealLog
  nutrition : NutritionState
  deriving DecidableEq

def handleFileSelect (app : NutriApp) (base64String : String)
    (outcome : Except AnalysisError FoodAnalysis) : NutriApp × List String :=
  match outcome with
  | Except.ok result =>
      ({ app with nutrition := { isAnalyzing := false, preview := some base64String,
                                 analysisResult := some result } }, [])
  | Except.error _ =>
      ({ app with nutrition := { isAnalyzing := false, preview := some base64String,
                                 analysisResult := none } },
       ["Failed to analyze image. Please try again."])

def handleSaveMeal (app : NutriApp) (now : Nat) : NutriApp :=
  match app.nutrition.analysisResult, app.nutrition.preview with
  | some result, some p =>
      if p = "" then app
      else
        { meals := handleAddMeal
            { id := toString now, name := result.name, timestamp := now,
              macros := result.macros, imageUrl := some p } app.meals,
          nutrition := { app.nutrition with preview := none, analysisResult := none } }
  | _, _ => app

/-! ## Workout streak (Profile component, `calculateStreak`)

```ts
const calculateStreak = (workouts) => {
  if (!workouts.length) return 0;
  const dates = [...new Set(workouts.map(w => w.date.split('T')[0]))]
    .sort((a, b) => new Date(b).getTime() - new Date(a).getTime());
  if (dates.length === 0) return 0;
  let streak = 0;
  const today = ...; const yesterday = ...;
  if (dates[0] !== today && dates[0] !== yesterday) return 0;
  for (let i = 0; i < dates.length; i++) {
    const current = new Date(dates[i]);
    const expected = new Date(dates[0]);
    expected.setDate(expected.getDate() - i);
    if (current.toISOString().split('T')[0] === expected.toISOString().split('T')[0]) streak++;
    else break;
  }
  return streak;
};
```

Calendar dates are modelled as integer day numbers, `yesterday` is
`today - 1`, and stepping a date back `i` days is subtracting `i`.
`new Set(...)` keeps first occurrences (`uniqAux`), and the comparator
sorts the distinct dates in descending order (`sortDesc`, an insertion
sort). -/

def uniqAux (seen : List Int) : List Int → List Int
  | [] => []
  | x :: xs => if x ∈ seen then uniqAux seen xs else x :: uniqAux (x :: seen) xs

def uniq (l : List Int) : List Int := uniqAux [] l

def insertDesc (x : Int) : List Int → List Int
  | [] => [x]
  | y :: ys => if y ≤ x then x :: y :: ys else y :: insertDesc x ys

def sortDesc : List Int → List Int
  | [] => []
  | x :: xs => insertDesc x (sortDesc xs)

def streakLoop (d0 : Int) : Nat → List Int → Nat
  | _, [] => 0
  | i, d :: ds => if d = d0 - (i : Int) then streakLoop d0 (i + 1) ds + 1 else 0

def calculateStreak (today : Int) (workoutDates : List Int) : Nat :=
  if workoutDates = [] then 0
  else
    let dates := sortDesc (uniq workoutDates)
    match dates with
    | [] => 0
    | d0 :: rest =>
        if d0 ≠ today ∧ d0 ≠ today - 1 then 0
        else streakLoop d0 0 (d0 :: rest)

/-! Spec-side reformulation of the streak (used as the comparison point of
the refinement claim C2): the streak is 0 when there are no workouts or
when the most recent distinct date is neither today nor yesterday, and
otherwise it is the number of consecutive calendar days present when
starting at the most recent date and stepping back one day at a time until
the first gap.  `consecDays` counts that run; its fuel `length + 1`
strictly exceeds the number of distinct dates, so it never truncates the
run, which cannot be longer than the number of distinct dates. -/

def maxDate : List Int → Option Int
  | [] => none
  | x :: xs =>
      match maxDate xs with
      | none => some x
      | some m => some (max x m)

def consecDays (s : List Int) : Int → Nat → Nat
  | _, 0 => 0
  | d, n + 1 => if d ∈ s then consecDays s (d - 1) n + 1 else 0

def streakSpec (today : Int) (ds : List Int) : Nat :=
  match maxDate ds with
  | none => 0
  | some m =>
      if m ≠ today ∧ m ≠ today - 1 then 0
      else consecDays ds m (ds.length + 1)

def streakLoopE : Int → List Int → Nat
  | _, [] => 0
  | e, d :: ds => if d = e then streakLoopE (e - 1) ds + 1 else 0

/-! ## Theorems -/

/-- C4: for every profile, the daily calorie target equals
`round(activityFactor × (10·weight + 6.25·height − 5·age + (5 if Male else −161))
 + goalAdjustment)` with factor 1.2 / 1.375 / 1.55 / 1.725 for Sedentary /
Lightly Active / Moderately Active / Very Active, and goal adjustment −500
for "Lose Weight", +300 for "Build Muscle", 0 otherwise. -/
theorem calculateTargets_matches_formula (u : UserProfile) :
    (calculateTargets u).1 =
      round ((match u.activityLevel with
          | ActivityLevel.sedentary => (1.2 : ℚ)
          | ActivityLevel.light => 1.375
          | ActivityLevel.moderate => 1.55
          | ActivityLevel.very => 1.725) *
        (10 * u.weight + 6.25 * u.height - 5 * u.age +
          (if u.gender = Gender.male then 5 else -161)) +
        (if u.goal = "Lose Weight" then (-500 : ℚ)
         else if u.goal = "Build Muscle" then 300 else 0)) := by
  have hlit : (("Lose Weight" : String) = "Build Muscle") ↔ False := by simp
  have hlit2 : (("Build Muscle" : String) = "Lose Weight") ↔ False := by simp
  by_cases hL : u.goal = "Lose Weight" <;> by_cases hB : u.goal = "Build Muscle"
  · exact absurd (hL.symm.trans hB) (by decide)
  all_goals
    cases hA : u.activityLevel <;>
      simp only [calculateTargets, multipliers, hA, hL, hB, hlit, hlit2,
        eq_self_iff_true, if_true, if_false, ite_true, ite_false,
        not_false_eq_true, iff_false] <;>
      (congr 1; ring)

/-- C6: BMI is weight over height-in-metres squared taken to one decimal
place, and the category uses closed-open boundaries: `< 18.5` Underweight,
`[18.5, 25)` Healthy, `[25, 30)` Overweight, `≥ 30` Obese; in particular
18.5 is Healthy, 25 is Overweight and 30 is Obese. -/
theorem bmiCategory_boundaries :
    (∀ w h : ℚ, computeBMIValue w h =
      (round (10 * (w / (h / 100 * (h / 100)))) : ℚ) / 10)
    ∧ (∀ v : ℚ, bmiCategory v = .underweight ↔ v < 18.5)
    ∧ (∀ v : ℚ, bmiCategory v = .healthy ↔ 18.5 ≤ v ∧ v < 25)
    ∧ (∀ v : ℚ, bmiCategory v = .overweight ↔ 25 ≤ v ∧ v < 30)
    ∧ (∀ v : ℚ, bmiCategory v = .obese ↔ 30 ≤ v)
    ∧ bmiCategory 18.5 = .healthy
    ∧ bmiCategory 25 = .overweight
    ∧ bmiCategory 30 = .obese := by
  refine ⟨fun w h => rfl, fun v => ?_, fun v => ?_, fun v => ?_, fun v => ?_,
    by norm_num [bmiCategory], by norm_num [bmiCategory], by norm_num [bmiCategory]⟩
  · unfold bmiCategory
    split_ifs with h1 h2 h3 <;> simpa using h1
  · unfold bmiCategory
    split_ifs with h1 h2 h3
    · simp
      intro hv
      linarith
    · simpa using h2
    · simp
      intro hv
      exact h3.1
    · simp
      intro hv
      push_neg at h2
      exact h2 hv
  · unfold bmiCategory
    split_ifs with h1 h2 h3
    · simp
      intro hv
      linarith
    · simp
      intro hv
      linarith [h2.2]
    · simpa using h3
    · simp
      intro hv
      push_neg at h3
      exact h3 hv
  · unfold bmiCategory
    split_ifs with h1 h2 h3
    · simp
      linarith
    · simp
      linarith [h2.2]
    · simp
      linarith [h3.2]
    · simp
      push_neg at h1 h2 h3
      exact h3 (h2 (by linarith))

lemma handleUpdateWorkout_no_match (u : WorkoutSession) :
    ∀ ws : List WorkoutSession, (∀ w ∈ ws, w.id ≠ u.id) →
      handleUpdateWorkout u ws = ws := by
  intro ws
  induction ws with
  | nil => intro _; rfl
  | cons a l ih =>
    intro h
    simp only [handleUpdateWorkout, List.map_cons]
    rw [if_neg (h a (List.mem_cons_self a l))]
    congr 1
    exact ih fun w hw => h w (List.mem_cons_of_mem a hw)

lemma handleUpdateWorkout_set (u : WorkoutSession) :
    ∀ ws : List WorkoutSession, (ws.map fun w => w.id).Nodup →
      ∀ i (hi : i < ws.length), (ws.get ⟨i, hi⟩).id = u.id →
        handleUpdateWorkout u ws = ws.set i u := by
  intro ws
  induction ws with
  | nil =>
    intro _ i hi
    exact absurd hi (by simp)
  | cons a l ih =>
    intro hnd i hi hid
    rw [List.map_cons, List.nodup_cons] at hnd
    obtain ⟨ha, hl⟩ := hnd
    cases i with
    | zero =>
      have hidA : a.id = u.id := hid
      have hrest : ∀ w ∈ l, w.id ≠ u.id := by
        intro w hw hwid
        exact ha (List.mem_map.mpr ⟨w, hw, hwid.trans hidA.symm⟩)
      simp only [handleUpdateWorkout, List.map_cons, List.set]
      rw [if_pos hidA]
      congr 1
      exact handleUpdateWorkout_no_match u l hrest
    | succ j =>
      have hj : j < l.length := by simpa using hi
      have hid' : (l.get ⟨j, hj⟩).id = u.id := hid
      have hau : a.id ≠ u.id := by
        intro h
        exact ha (List.mem_map.mpr
          ⟨l.get ⟨j, hj⟩, List.get_mem l j hj, hid'.trans h.symm⟩)
      simp only [handleUpdateWorkout, List.map_cons, List.set]
      rw [if_neg hau]
      congr 1
      exact ih hl j hj hid'

/-- C7: updating by the id of a session present in the collection replaces
exactly that entry (every other entry and the relative order are kept:
the result is `ws.set i u`), and updating with an id absent from the
collection is a no-op. Id uniqueness is the data-model invariant. -/
theorem handleUpdateWorkout_frame (ws : List WorkoutSession) (u : WorkoutSession) :
    ((ws.map fun w => w.id).Nodup →
      ∀ i (hi : i < ws.length), (ws.get ⟨i, hi⟩).id = u.id →
        handleUpdateWorkout u ws = ws.set i u)
    ∧ ((∀ w ∈ ws, w.id ≠ u.id) → handleUpdateWorkout u ws = ws) :=
  ⟨fun hnd i hi hid => handleUpdateWorkout_set u ws hnd i hi hid,
   handleUpdateWorkout_no_match u ws⟩

/-- Witness for C7: in the two-session store `[wA, wB]`, updating with a
session carrying `wB`'s id replaces exactly the second entry. -/
theorem handleUpdateWorkout_frame_witness :
    handleUpdateWorkout uB [wA, wB] = [wA, uB] := by
  have h := (handleUpdateWorkout_frame [wA, wB] uB).1 (by decide) 1 (by decide) (by decide)
  exact h.trans rfl

/-- C8: finishing is only permitted when the session name is non-empty and
at least one exercise exists; the produced session has
`durationMinutes = max(1, ceil(elapsedSeconds/60))` and
`caloriesBurned = floor(durationMinutes·5 + exerciseCount·20)`, and it is
the entry added at the front of the store. -/
theorem finishSession_guard_and_derived (s : LoggingState) (now date : String) :
    ((finishSession s now date).isSome = true ↔
      s.currentSessionName ≠ "" ∧ s.currentExercises ≠ [])
    ∧ (∀ w, finishSession s now date = some w →
        w.durationMinutes = max 1 ⌈(s.elapsedSeconds : ℚ) / 60⌉₊
        ∧ w.caloriesBurned =
            ⌊(w.durationMinutes : ℚ) * 5 + (s.currentExercises.length : ℚ) * 20⌋₊
        ∧ w.name = s.currentSessionName ∧ w.exercises = s.currentExercises)
    ∧ (∀ (w : WorkoutSession) (ws : List WorkoutSession),
        handleAddWorkout w ws = w :: ws) := by
  refine ⟨?_, ?_, fun w ws => rfl⟩
  · rw [finishSession]
    split_ifs with hg
    · simpa using fun h1 => hg.resolve_left h1
    · push_neg at hg
      simpa using hg
  · intro w hw
    rw [finishSession] at hw
    split_ifs at hw with hg
    obtain rfl : _ = w := Option.some.inj hw
    exact ⟨rfl, rfl, rfl, rfl⟩

/-- Witness for C8: with 125 elapsed seconds and 2 exercises the finished
session has durationMinutes = 3 and caloriesBurned = 55. -/
theorem finishSession_guard_and_derived_witness :
    finishSession s125 "1" "d" = some w125 ∧
      w125.durationMinutes = 3 ∧ w125.caloriesBurned = 55 := by
  have hsome : finishSession s125 "1" "d" = some w125 := by
    rw [finishSession, if_neg (by decide)]
    exact rfl
  have h := (finishSession_guard_and_derived s125 "1" "d").2.1 w125 hsome
  have hceil : ⌈(s125.elapsedSeconds : ℚ) / 60⌉₊ = 3 := by
    have h1 : ((s125.elapsedSeconds : Nat) : ℚ) = 125 := by norm_num [s125]
    rw [h1, Nat.ceil_eq_iff (by norm_num)]
    norm_num
  have hdur : w125.durationMinutes = 3 := by
    rw [h.1, hceil]
    omega
  have hlen : ((s125.currentExercises.length : Nat) : ℚ) = 2 := by
    norm_num [s125]
  have hcal : w125.caloriesBurned = 55 := by
    rw [h.2.1, hdur, hlen]
    rw [show ((3 : Nat) : ℚ) * 5 + (2 : ℚ) * 20 = ((55 : Nat) : ℚ) by norm_num]
    rw [Nat.floor_natCast]
  exact ⟨hsome, hdur, hcal⟩

lemma foldl_add_eq_sum (f : Exercise → ℚ) :
    ∀ (l : List Exercise) (a : ℚ),
      l.foldl (fun acc ex => acc + f ex) a = a + (l.map f).sum := by
  intro l
  induction l with
  | nil => intro a; simp
  | cons x xs ih =>
    intro a
    simp only [List.foldl_cons, List.map_cons, List.sum_cons, ih]
    ring

/-- C9: the Heavy Lifter badge predicate holds iff some single session's
total volume Σ(weight×reps×sets) is at least 5000; a session with one
exercise of weight 50, reps 10, sets 10 (volume exactly 5000) unlocks it. -/
theorem heavyLifter_iff_volume :
    (∀ (u : UserProfile) (ws : List WorkoutSession),
      heavyLifterUnlocked u ws = true ↔
        ∃ s ∈ ws,
          5000 ≤ (s.exercises.map fun ex => ex.weight * ex.reps * ex.sets).sum)
    ∧ ∀ u : UserProfile, heavyLifterUnlocked u [session5000] = true := by
  have hvol : ∀ s : WorkoutSession,
      sessionVolume s = (s.exercises.map fun ex => ex.weight * ex.reps * ex.sets).sum := by
    intro s
    simp [sessionVolume, foldl_add_eq_sum]
  have hmain : ∀ (u : UserProfile) (ws : List WorkoutSession),
      heavyLifterUnlocked u ws = true ↔
        ∃ s ∈ ws,
          5000 ≤ (s.exercises.map fun ex => ex.weight * ex.reps * ex.sets).sum := by
    intro u ws
    rw [heavyLifterUnlocked, List.any_eq_true]
    constructor
    · rintro ⟨s, hs, hp⟩
      exact ⟨s, hs, hvol s ▸ of_decide_eq_true hp⟩
    · rintro ⟨s, hs, hp⟩
      exact ⟨s, hs, decide_eq_true ((hvol s).symm ▸ hp)⟩
  refine ⟨hmain, fun u => (hmain u [session5000]).mpr ?_⟩
  refine ⟨session5000, List.mem_cons_self _ _, ?_⟩
  norm_num [session5000]

/-- C1 counterexample: a service response whose JSON parses but carries no
`calories` field is returned by `analyzeFoodImage` as a *success* whose
`calories` is left undefined (`none`) — the claim says such a call must
fail with an error and never return a success with an absent field. -/
theorem analyzeFoodImage_missing_field_counterexample :
    analyzeFoodImage (GenOutcome.parsed foodMissingCalories) =
      Except.ok { name := some "Apple",
                  macros := { calories := none, protein := some 1,
                              carbs := some 20, fat := some 0 },
                  description := some "A healthy snack." } := rfl

/-- C1 amended: `analyzeFoodImage` fails with an error exactly on transport
failure, a response with no text, or a JSON parse failure; when parsing
succeeds it returns success and passes the parsed fields through without
presence validation, so an absent numeric field stays undefined (it is not
zero-filled and not turned into a failure). -/
theorem analyzeFoodImage_passthrough :
    (∀ d : ParsedFoodJson,
      analyzeFoodImage (GenOutcome.parsed d) =
        Except.ok { name := d.name,
                    macros := { calories := d.calories, protein := d.protein,
                                carbs := d.carbs, fat := d.fat },
                    description := d.description })
    ∧ analyzeFoodImage GenOutcome.transportError =
        Except.error AnalysisError.transportFailure
    ∧ analyzeFoodImage GenOutcome.noText = Except.error AnalysisError.noResponse
    ∧ analyzeFoodImage GenOutcome.parseFailure =
        Except.error AnalysisError.parseFailure :=
  ⟨fun _ => rfl, rfl, rfl, rfl⟩

/-- C5: whenever plan generation fails for any reason (transport error,
empty response text, or JSON parse failure), `generateWorkoutPlan`
returns — without propagating an error (it is a total function into
`AIWorkoutPlan`) — the exact static fallback plan: 3 named bodyweight
exercises, each with weightSuggestion = 0. -/
theorem generateWorkoutPlan_fallback (o : GenOutcome AIWorkoutPlan)
    (hf : o.isFailure = true) :
    generateWorkoutPlan o = fallbackPlan
    ∧ fallbackPlan.exercises.map (fun ex => ex.name) =
        ["Jumping Jacks", "Pushups", "Squats"]
    ∧ fallbackPlan.exercises.map (fun ex => ex.weightSuggestion) = [0, 0, 0] := by
  refine ⟨?_, rfl, rfl⟩
  cases o with
  | parsed p => exact absurd hf (by simp [GenOutcome.isFailure])
  | transportError => rfl
  | noText => rfl
  | parseFailure => rfl

/-- Witness for C5: the transport-error outcome is a failure and yields the
fallback plan. -/
theorem generateWorkoutPlan_fallback_witness :
    (GenOutcome.transportError : GenOutcome AIWorkoutPlan).isFailure = true
    ∧ generateWorkoutPlan GenOutcome.transportError = fallbackPlan :=
  ⟨rfl, (generateWorkoutPlan_fallback GenOutcome.transportError rfl).1⟩

/-- C10: called with an empty message history, the guarded body raises (the
last-entry access fails), the error is caught, and `getFitnessCoaching`
returns the fixed connection-trouble fallback string — it neither throws
(it is total) nor returns the empty string. -/
theorem getFitnessCoaching_empty_history (send : String → Except Unit String) :
    coachingBody [] send = Except.error JsError.typeError
    ∧ getFitnessCoaching [] send =
        "I'm having trouble connecting to the fitness server. Let's focus on your breathing for a moment."
    ∧ getFitnessCoaching [] send ≠ "" := by
  refine ⟨rfl, rfl, ?_⟩
  have h2 : getFitnessCoaching [] send =
      "I'm having trouble connecting to the fitness server. Let's focus on your breathing for a moment." := rfl
  rw [h2]
  decide

/-- C3: a failed food-image analysis leaves the meal log unchanged, shows
the alert instead of rethrowing (the handler is total and its only output
besides the new state is the alert list), clears the analysis result, and
a subsequent save is a no-op on the meal log — no MealLog is created. -/
theorem foodAnalysisFailure_preserves_meals (app : NutriApp) (img : String)
    (e : AnalysisError) :
    (handleFileSelect app img (Except.error e)).1.meals = app.meals
    ∧ (handleFileSelect app img (Except.error e)).2 =
        ["Failed to analyze image. Please try again."]
    ∧ (handleFileSelect app img (Except.error e)).1.nutrition.analysisResult = none
    ∧ (handleFileSelect app img (Except.error e)).1.nutrition.isAnalyzing = false
    ∧ ∀ now : Nat,
        (handleSaveMeal (handleFileSelect app img (Except.error e)).1 now).meals =
          app.meals :=
  ⟨rfl, rfl, rfl, rfl, fun _ => rfl⟩

lemma uniqAux_nil (seen : List Int) : uniqAux seen [] = [] := rfl

lemma uniqAux_cons (seen : List Int) (x : Int) (xs : List Int) :
    uniqAux seen (x :: xs) =
      if x ∈ seen then uniqAux seen xs else x :: uniqAux (x :: seen) xs := rfl

lemma insertDesc_nil (x : Int) : insertDesc x [] = [x] := rfl

lemma insertDesc_cons (x y : Int) (ys : List Int) :
    insertDesc x (y :: ys) =
      if y ≤ x then x :: y :: ys else y :: insertDesc x ys := rfl

lemma sortDesc_nil : sortDesc [] = [] := rfl

lemma sortDesc_cons (x : Int) (xs : List Int) :
    sortDesc (x :: xs) = insertDesc x (sortDesc xs) := rfl

lemma streakLoop_nil (d0 : Int) (i : Nat) : streakLoop d0 i [] = 0 := rfl

lemma streakLoop_cons (d0 : Int) (i : Nat) (d : Int) (ds : List Int) :
    streakLoop d0 i (d :: ds) =
      if d = d0 - (i : Int) then streakLoop d0 (i + 1) ds + 1 else 0 := rfl

lemma consecDays_succ (s : List Int) (d : Int) (n : Nat) :
    consecDays s d (n + 1) = if d ∈ s then consecDays s (d - 1) n + 1 else 0 := rfl

lemma mem_uniqAux (a : Int) :
    ∀ (l seen : List Int), a ∈ uniqAux seen l ↔ a ∈ l ∧ a ∉ seen := by
  intro l
  induction l with
  | nil => intro seen; simp [uniqAux]
  | cons x xs ih =>
    intro seen
    by_cases hx : x ∈ seen
    · rw [uniqAux_cons, if_pos hx, ih]
      constructor
      · rintro ⟨ha, hs⟩
        exact ⟨List.mem_cons_of_mem x ha, hs⟩
      · rintro ⟨ha, hs⟩
        rcases List.mem_cons.mp ha with rfl | ha'
        · exact absurd hx hs
        · exact ⟨ha', hs⟩
    · rw [uniqAux_cons, if_neg hx]
      constructor
      · intro h
        rcases List.mem_cons.mp h with rfl | h'
        · exact ⟨List.mem_cons_self _ _, hx⟩
        · have h2 := (ih (x :: seen)).mp h'
          exact ⟨List.mem_cons_of_mem x h2.1,
                 fun hs => h2.2 (List.mem_cons_of_mem x hs)⟩
      · rintro ⟨ha, hs⟩
        by_cases hax : a = x
        · subst hax
          exact List.mem_cons_self _ _
        · rcases List.mem_cons.mp ha with h1 | ha'
          · exact absurd h1 hax
          · exact List.mem_cons_of_mem x ((ih (x :: seen)).mpr
              ⟨ha', fun hc => (List.mem_cons.mp hc).elim hax hs⟩)

lemma nodup_uniqAux : ∀ (l seen : List Int), (uniqAux seen l).Nodup := by
  intro l
  induction l with
  | nil => intro seen; simp [uniqAux]
  | cons x xs ih =>
    intro seen
    by_cases hx : x ∈ seen
    · rw [uniqAux_cons, if_pos hx]
      exact ih seen
    · rw [uniqAux_cons, if_neg hx]
      refine List.nodup_cons.mpr ⟨?_, ih (x :: seen)⟩
      intro hc
      exact ((mem_uniqAux x xs (x :: seen)).mp hc).2 (List.mem_cons_self _ _)

lemma length_uniqAux_le : ∀ (l seen : List Int), (uniqAux seen l).length ≤ l.length := by
  intro l
  induction l with
  | nil => intro seen; simp [uniqAux]
  | cons x xs ih =>
    intro seen
    by_cases hx : x ∈ seen
    · rw [uniqAux_cons, if_pos hx]
      exact le_trans (ih seen) (Nat.le_succ _)
    · rw [uniqAux_cons, if_neg hx]
      simpa using Nat.succ_le_succ (ih (x :: seen))

lemma insertDesc_perm (x : Int) : ∀ l : List Int, List.Perm (insertDesc x l) (x :: l) := by
  intro l
  induction l with
  | nil => exact List.Perm.refl _
  | cons y ys ih =>
    rw [insertDesc_cons]
    split_ifs with h
    · exact List.Perm.refl _
    · exact (ih.cons y).trans (List.Perm.swap x y ys)

lemma sortDesc_perm : ∀ l : List Int, List.Perm (sortDesc l) l := by
  intro l
  induction l with
  | nil => exact List.Perm.refl _
  | cons x xs ih =>
    rw [sortDesc_cons]
    exact (insertDesc_perm x (sortDesc xs)).trans (ih.cons x)

lemma insertDesc_pairwise (x : Int) :
    ∀ l : List Int, l.Pairwise (fun a b => b ≤ a) →
      (insertDesc x l).Pairwise (fun a b => b ≤ a) := by
  intro l
  induction l with
  | nil => intro _; simp [insertDesc]
  | cons y ys ih =>
    intro hp
    rw [List.pairwise_cons] at hp
    obtain ⟨hy, hys⟩ := hp
    rw [insertDesc_cons]
    split_ifs with h
    · refine List.pairwise_cons.mpr ⟨?_, List.pairwise_cons.mpr ⟨hy, hys⟩⟩
      intro b hb
      rcases List.mem_cons.mp hb with rfl | hb'
      · exact h
      · exact le_trans (hy b hb') h
    · push_neg at h
      refine List.pairwise_cons.mpr ⟨?_, ih hys⟩
      intro b hb
      rcases List.mem_cons.mp ((insertDesc_perm x ys).mem_iff.mp hb) with rfl | hb'
      · exact le_of_lt h
      · exact hy b hb'

lemma sortDesc_pairwise : ∀ l : List Int, (sortDesc l).Pairwise (fun a b => b ≤ a) := by
  intro l
  induction l with
  | nil => simp [sortDesc]
  | cons x xs ih =>
    rw [sortDesc_cons]
    exact insertDesc_pairwise x (sortDesc xs) ih

lemma pairwise_gt_of_ge_nodup {l : List Int}
    (hge : l.Pairwise (fun a b => b ≤ a)) (hnd : l.Nodup) :
    l.Pairwise (fun a b => b < a) :=
  (hge.and hnd).imp fun h => lt_of_le_of_ne h.1 (Ne.symm h.2)

lemma maxDate_none_iff : ∀ l : List Int, maxDate l = none ↔ l = [] := by
  intro l
  cases l with
  | nil => simp [maxDate]
  | cons x xs =>
    rw [maxDate]
    cases maxDate xs <;> simp

lemma maxDate_spec :
    ∀ (l : List Int) (m : Int), maxDate l = some m → m ∈ l ∧ ∀ b ∈ l, b ≤ m := by
  intro l
  induction l with
  | nil =>
    intro m h
    exact absurd h (by simp [maxDate])
  | cons x xs ih =>
    intro m h
    rw [maxDate] at h
    cases hm : maxDate xs with
    | none =>
      rw [hm] at h
      obtain rfl : x = m := Option.some.inj h
      have hxs : xs = [] := (maxDate_none_iff xs).mp hm
      subst hxs
      refine ⟨List.mem_cons_self _ _, ?_⟩
      intro b hb
      rcases List.mem_cons.mp hb with rfl | hb'
      · exact le_refl _
      · exact absurd hb' (List.not_mem_nil b)
    | some m' =>
      rw [hm] at h
      obtain rfl : max x m' = m := Option.some.inj h
      obtain ⟨hmem, hub⟩ := ih m' hm
      constructor
      · rcases le_total x m' with hc | hc
        · rw [max_eq_right hc]
          exact List.mem_cons_of_mem x hmem
        · rw [max_eq_left hc]
          exact List.mem_cons_self _ _
      · intro b hb
        rcases List.mem_cons.mp hb with rfl | hb'
        · exact le_max_left _ _
        · exact le_trans (hub b hb') (le_max_right _ _)

lemma consecDays_congr (s t : List Int) (hm : ∀ x : Int, x ∈ s ↔ x ∈ t) :
    ∀ (n : Nat) (d : Int), consecDays s d n = consecDays t d n := by
  intro n
  induction n with
  | zero => intro d; rfl
  | succ k ih =>
    intro d
    rw [consecDays_succ, consecDays_succ]
    by_cases hd : d ∈ s
    · rw [if_pos hd, if_pos ((hm d).mp hd), ih]
    · rw [if_neg hd, if_neg (fun hc => hd ((hm d).mpr hc))]

lemma consecDays_drop (a : Int) (s : List Int) :
    ∀ (n : Nat) (e : Int), e < a → consecDays (a :: s) e n = consecDays s e n := by
  intro n
  induction n with
  | zero => intro e _; rfl
  | succ k ih =>
    intro e he
    have hne : e ≠ a := ne_of_lt he
    rw [consecDays_succ, consecDays_succ]
    by_cases hd : e ∈ s
    · rw [if_pos (List.mem_cons_of_mem a hd), if_pos hd, ih (e - 1) (by omega)]
    · rw [if_neg (fun hc => (List.mem_cons.mp hc).elim hne hd), if_neg hd]

lemma streakLoopE_nil (e : Int) : streakLoopE e [] = 0 := rfl

lemma streakLoopE_cons (e d : Int) (ds : List Int) :
    streakLoopE e (d :: ds) = if d = e then streakLoopE (e - 1) ds + 1 else 0 := rfl

lemma streakLoop_eq_streakLoopE (d0 : Int) :
    ∀ (l : List Int) (i : Nat), streakLoop d0 i l = streakLoopE (d0 - (i : Int)) l := by
  intro l
  induction l with
  | nil => intro i; rfl
  | cons d ds ih =>
    intro i
    rw [streakLoop_cons, streakLoopE_cons]
    by_cases hd : d = d0 - (i : Int)
    · rw [if_pos hd, if_pos hd, ih (i + 1)]
      have harg : d0 - ((i + 1 : Nat) : Int) = d0 - (i : Int) - 1 := by
        push_cast
        ring
      rw [harg]
    · rw [if_neg hd, if_neg hd]

lemma streakLoopE_eq_consecDays :
    ∀ l : List Int, l.Pairwise (fun a b => b < a) →
      ∀ (e : Int) (n : Nat), (∀ x ∈ l, x ≤ e) → l.length ≤ n →
        streakLoopE e l = consecDays l e n := by
  intro l
  induction l with
  | nil =>
    intro _ e n _ _
    cases n with
    | zero => rfl
    | succ k => rw [streakLoopE_nil, consecDays_succ, if_neg (List.not_mem_nil e)]
  | cons d ds ih =>
    intro hp e n hub hn
    rw [List.pairwise_cons] at hp
    obtain ⟨hd, hds⟩ := hp
    obtain ⟨k, rfl⟩ : ∃ k, n = k + 1 := ⟨n - 1, by simp at hn; omega⟩
    rw [streakLoopE_cons, consecDays_succ]
    by_cases hde : d = e
    · subst hde
      rw [if_pos rfl, if_pos (List.mem_cons_self _ _)]
      congr 1
      rw [consecDays_drop d ds k (d - 1) (by omega)]
      exact ih hds (d - 1) k
        (fun x hx => by have := hd x hx; omega)
        (by simp at hn; omega)
    · have hdlt : d < e := lt_of_le_of_ne (hub d (List.mem_cons_self _ _)) hde
      have hne : e ∉ d :: ds := by
        intro hc
        rcases List.mem_cons.mp hc with rfl | hc'
        · exact hde rfl
        · have := hd e hc'
          omega
      rw [if_neg hde, if_neg hne]

lemma calculateStreak_eq_spec (today : Int) (ws : List Int) :
    calculateStreak today ws = streakSpec today ws := by
  by_cases hws : ws = []
  · subst hws
    rfl
  · have hmemL : ∀ x : Int, x ∈ sortDesc (uniq ws) ↔ x ∈ ws := by
      intro x
      rw [(sortDesc_perm (uniq ws)).mem_iff, uniq, mem_uniqAux]
      simp
    have hnd : (sortDesc (uniq ws)).Nodup :=
      (sortDesc_perm (uniq ws)).symm.nodup (nodup_uniqAux ws [])
    have hge := sortDesc_pairwise (uniq ws)
    have hgt := pairwise_gt_of_ge_nodup hge hnd
    have hne : sortDesc (uniq ws) ≠ [] := by
      intro hc
      obtain ⟨x, hx⟩ := List.exists_mem_of_ne_nil ws hws
      have := (hmemL x).mpr hx
      rw [hc] at this
      exact List.not_mem_nil x this
    obtain ⟨d0, rest, hL⟩ : ∃ d0 rest, sortDesc (uniq ws) = d0 :: rest := by
      cases hLa : sortDesc (uniq ws) with
      | nil => exact absurd hLa hne
      | cons a l => exact ⟨a, l, rfl⟩
    have hgeL : (d0 :: rest).Pairwise (fun a b => b ≤ a) := hL ▸ hge
    have hub0 : ∀ b ∈ ws, b ≤ d0 := by
      intro b hb
      have hbL : b ∈ d0 :: rest := hL ▸ (hmemL b).mpr hb
      rcases List.mem_cons.mp hbL with rfl | hb'
      · exact le_refl _
      · exact (List.pairwise_cons.mp hgeL).1 b hb'
    have hd0ws : d0 ∈ ws := (hmemL d0).mp (hL ▸ List.mem_cons_self d0 rest)
    have hmax : maxDate ws = some d0 := by
      cases hmx : maxDate ws with
      | none => exact absurd ((maxDate_none_iff ws).mp hmx) hws
      | some m =>
        obtain ⟨hmem, hub⟩ := maxDate_spec ws m hmx
        have h1 : m ≤ d0 := hub0 m hmem
        have h2 : d0 ≤ m := hub d0 hd0ws
        congr 1
        omega
    have hspec : streakSpec today ws =
        if d0 ≠ today ∧ d0 ≠ today - 1 then 0
        else consecDays ws d0 (ws.length + 1) := by
      rw [streakSpec, hmax]
    simp only [calculateStreak, hws, ite_false, hL]
    rw [hspec]
    by_cases hcond : d0 ≠ today ∧ d0 ≠ today - 1
    · rw [if_pos hcond, if_pos hcond]
    · rw [if_neg hcond, if_neg hcond]
      rw [streakLoop_eq_streakLoopE d0 (d0 :: rest) 0]
      have h00 : d0 - ((0 : Nat) : Int) = d0 := by simp
      rw [h00]
      have hlen : (d0 :: rest).length ≤ ws.length + 1 := by
        have e1 : (sortDesc (uniq ws)).length = (uniq ws).length :=
          (sortDesc_perm (uniq ws)).length_eq
        have e2 : (uniq ws).length ≤ ws.length := length_uniqAux_le ws []
        rw [← hL, e1]
        omega
      rw [streakLoopE_eq_consecDays (d0 :: rest) (hL ▸ hgt) d0 (ws.length + 1)
        (fun b hb => by
          rcases List.mem_cons.mp hb with rfl | hb'
          · exact le_refl _
          · exact (List.pairwise_cons.mp hgeL).1 b hb')
        hlen]
      exact consecDays_congr (d0 :: rest) ws
        (fun x => by rw [← hL]; exact hmemL x) (ws.length + 1) d0

lemma streak_example_three (t : Int) : calculateStreak t [t, t - 1, t - 2] = 3 := by
  have huniq : uniq [t, t - 1, t - 2] = [t, t - 1, t - 2] := by
    rw [uniq, uniqAux_cons, if_neg (List.not_mem_nil t),
        uniqAux_cons, if_neg (show t - 1 ∉ [t] by rw [List.mem_singleton]; omega),
        uniqAux_cons,
        if_neg (show t - 2 ∉ [t - 1, t] by rw [List.mem_cons, List.mem_singleton]; omega),
        uniqAux_nil]
  have hsort : sortDesc [t, t - 1, t - 2] = [t, t - 1, t - 2] := by
    rw [sortDesc_cons, sortDesc_cons, sortDesc_cons, sortDesc_nil, insertDesc_nil,
        insertDesc_cons, if_pos (show t - 2 ≤ t - 1 by omega),
        insertDesc_cons, if_pos (show t - 1 ≤ t by omega)]
  have hloop : streakLoop t 0 [t, t - 1, t - 2] = 3 := by
    rw [streakLoop_cons, if_pos (show t = t - ((0 : Nat) : Int) by simp),
        streakLoop_cons,
        if_pos (show t - 1 = t - ((0 + 1 : Nat) : Int) by push_cast; ring),
        streakLoop_cons,
        if_pos (show t - 2 = t - ((0 + 1 + 1 : Nat) : Int) by push_cast; ring),
        streakLoop_nil]
  simp only [calculateStreak]
  rw [if_neg (show ¬([t, t - 1, t - 2] : List Int) = [] by simp), huniq, hsort]
  show (if t ≠ t ∧ t ≠ t - 1 then 0 else streakLoop t 0 [t, t - 1, t - 2]) = 3
  rw [if_neg (show ¬(t ≠ t ∧ t ≠ t - 1) by simp)]
  exact hloop

lemma streak_example_one (t : Int) : calculateStreak t [t, t - 3] = 1 := by
  have huniq : uniq [t, t - 3] = [t, t - 3] := by
    rw [uniq, uniqAux_cons, if_neg (List.not_mem_nil t),
        uniqAux_cons, if_neg (show t - 3 ∉ [t] by rw [List.mem_singleton]; omega),
        uniqAux_nil]
  have hsort : sortDesc [t, t - 3] = [t, t - 3] := by
    rw [sortDesc_cons, sortDesc_cons, sortDesc_nil, insertDesc_nil,
        insertDesc_cons, if_pos (show t - 3 ≤ t by omega)]
  have hloop : streakLoop t 0 [t, t - 3] = 1 := by
    rw [streakLoop_cons, if_pos (show t = t - ((0 : Nat) : Int) by simp),
        streakLoop_cons,
        if_neg (show ¬(t - 3 = t - ((0 + 1 : Nat) : Int)) by push_cast; omega),
        ]
  simp only [calculateStreak]
  rw [if_neg (show ¬([t, t - 3] : List Int) = [] by simp), huniq, hsort]
  show (if t ≠ t ∧ t ≠ t - 1 then 0 else streakLoop t 0 [t, t - 3]) = 1
  rw [if_neg (show ¬(t ≠ t ∧ t ≠ t - 1) by simp)]
  exact hloop

lemma streak_example_zero (t : Int) : calculateStreak t [t - 3] = 0 := by
  have huniq : uniq [t - 3] = [t - 3] := by
    rw [uniq, uniqAux_cons, if_neg (List.not_mem_nil _), uniqAux_nil]
  have hsort : sortDesc [t - 3] = [t - 3] := by
    rw [sortDesc_cons, sortDesc_nil, insertDesc_nil]
  simp only [calculateStreak]
  rw [if_neg (show ¬([t - 3] : List Int) = [] by simp), huniq, hsort]
  show (if t - 3 ≠ t ∧ t - 3 ≠ t - 1 then 0 else streakLoop (t - 3) 0 [t - 3]) = 0
  rw [if_pos (show t - 3 ≠ t ∧ t - 3 ≠ t - 1 by constructor <;> omega)]

/-- C2: `calculateStreak` coincides with the spec description (`streakSpec`)
on every input: the streak is 0 for an empty list or when the most recent
distinct date is neither today nor yesterday, and otherwise counts
consecutive calendar days stepping back from the most recent date until
the first gap.  In particular {today, yesterday, day-before-yesterday}
gives 3, {today, 3-days-ago} gives 1, {3-days-ago} gives 0, and the empty
set gives 0. -/
theorem calculateStreak_matches_spec :
    (∀ (today : Int) (workoutDates : List Int),
      calculateStreak today workoutDates = streakSpec today workoutDates)
    ∧ (∀ t : Int, calculateStreak t [t, t - 1, t - 2] = 3)
    ∧ (∀ t : Int, calculateStreak t [t, t - 3] = 1)
    ∧ (∀ t : Int, calculateStreak t [t - 3] = 0)
    ∧ (∀ t : Int, calculateStreak t [] = 0) :=
  ⟨calculateStreak_eq_spec, streak_example_three, streak_example_one,
   streak_example_zero, fun _ => rfl⟩
